import Mathlib

/-!
Verification of the mutation core of the event-sourcing library
(src/eventsourcing/domain/model/entity.py).

The file shallowly embeds the entity/event protocol of entity.py.  Python
objects are modelled as Lean structures, in-place mutation as explicit state
passing, and exceptions as an error channel.  The modules entity.py imports
(events.py with the DomainEvent base classes, exceptions.py, utils/topic.py)
are not part of the given sources; the definitions standing in for them are
modelled from the spec and are marked as such in their doc comments.

Conventions:
- UUIDs are modelled as natural numbers.
- Attribute values of concrete entity subclasses are modelled as strings; an
  entity carries a dictionary of named attributes standing for the state a
  concrete subclass (such as the Example class of the spec) keeps in its
  instance dictionary.
- Hash digests are modelled as natural numbers computed by a concrete
  deterministic mixing function; the spec treats the digest function as an
  external deterministic collaborator.
-/

namespace EventSourcing

/--
Modelled from the spec (section 7) for the missing exceptions.py: the error
kinds raised by the mutation core.  Constructor names follow the exception
classes imported by entity.py (EntityIsDiscarded, OriginatorIDError,
OriginatorVersionError, HeadHashError); the spec refers to them as
DiscardedError, IdentityMismatchError, VersionConflictError and
HashChainError respectively.  topicResolutionError models the
TopicResolutionError of the missing utils/topic.py.  noneTypeError models the
AttributeError Python raises when setattr is applied to None (it is not one
of the error kinds of the spec; it can only arise when a non-Created event is
replayed against an absent target).
-/
inductive ESError : Type where
  | entityIsDiscarded : ESError
  | originatorIDError : ESError
  | originatorVersionError : ESError
  | headHashError : ESError
  | topicResolutionError : ESError
  | noneTypeError : ESError
deriving DecidableEq

/--
Python dictionary assignment d[k] = v: updating an existing key keeps its
position, a new key is appended.  Used for the instance dictionary that
backs entity attributes (setattr) and for keyword-argument dictionaries.
-/
def dictSet : List (String × String) → String → String → List (String × String)
  | [], k, v => [(k, v)]
  | (k2, v2) :: rest, k, v =>
      if k2 = k then (k, v) :: rest else (k2, v2) :: dictSet rest k v

/-- Python dictionary lookup d.get(k): the value at the first matching key. -/
def dictGet : List (String × String) → String → Option String
  | [], _ => none
  | (k2, v2) :: rest, k => if k2 = k then some v2 else dictGet rest k

/-- Building a Python dictionary from a sequence of keyword arguments. -/
def toDict (ps : List (String × String)) : List (String × String) :=
  ps.foldl (fun d p => dictSet d p.1 p.2) []

/-- One inclusion of Python dictionary equality: every entry of a is in b. -/
def dictLeq (a b : List (String × String)) : Bool :=
  a.all (fun p => dictGet b p.1 == some p.2)

/--
Python dictionary equality d1 == d2: same keys mapped to the same values,
irrespective of insertion order.
-/
def dictEq (a b : List (String × String)) : Bool :=
  dictLeq a b && dictLeq b a

/-- The keys of a dictionary are distinct (an invariant of Python dicts). -/
def keysNodup (d : List (String × String)) : Prop :=
  (d.map Prod.fst).Nodup

/--
Modelled from the spec (sections 4.5 and 6) for the missing utils/topic.py:
get_topic maps each concrete entity class to a stable string.  These are the
topics of the concrete entity classes instantiated by this embedding.
-/
def domainEntityTopic : String := "entity#DomainEntity"

/-- Modelled from the spec: topic of the versioned concrete entity class. -/
def versionedEntityTopic : String := "entity#VersionedEntity"

/-- Modelled from the spec: topic of the hash-chained concrete entity class. -/
def hashchainEntityTopic : String := "entity#EntityWithHashchain"

/-- Modelled from the spec: topic of the timestamped concrete entity class. -/
def timestampedEntityTopic : String := "entity#TimestampedEntity"

/-- The topics known to the topic-resolution registry. -/
def knownTopics : List String :=
  [domainEntityTopic, versionedEntityTopic, hashchainEntityTopic,
   timestampedEntityTopic]

/--
Modelled from the spec (section 4.5) for the missing utils/topic.py:
resolve(topic) returns the concrete type registered for the topic and fails
with TopicResolutionError if the topic is unknown.  The embedding returns
unit on success since each entity model constructs its own concrete type.
-/
def resolve_topic (t : String) : Except ESError Unit :=
  if t ∈ knownTopics then Except.ok () else Except.error ESError.topicResolutionError

/--
Result of one call of an event mutate method.
err: the exception propagating out of the call, if any.
obj: the state of the in-place target object after the call (mirrors Python
mutating the argument object in place; it is none exactly when the call was
given an absent target).  On an error raised after a field assignment, obj
records the already-modified state.
ret: the Python return value of the call (meaningful when err is none).
-/
structure MutOut (E : Type) where
  err : Option ESError
  obj : Option E
  ret : Option E
deriving DecidableEq

/-- A trigger command: the operations DomainEntity offers on a live entity
(change a named attribute, or discard), as in the source methods
change_attribute and discard. -/
inductive Trig : Type where
  | setAttr (name value : String) : Trig
  | discard : Trig
deriving DecidableEq

/-! ## Plain domain entity (class DomainEntity, entity.py lines 58 through 297)

The concrete entity type carries the identifier and discard flag of
DomainEntity plus a dictionary of named attributes standing for the state of
a concrete subclass. -/

/-- State of a plain domain entity: the fields set by DomainEntity.init
(id at line 169, is_discarded at line 170) plus the attribute dictionary of
the concrete subclass. -/
structure DEntity : Type where
  _id : Nat
  isDiscarded : Bool
  attrs : List (String × String)
deriving DecidableEq

/-- The events of the plain domain entity: Created (line 130), carrying the
originator topic and the keyword arguments of the concrete constructor;
AttributeChanged (line 197), carrying a name and value; Discarded (line 215).
Every event carries its originator id (EventWithOriginatorID). -/
inductive DEvent : Type where
  | created (originator_id : Nat) (originator_topic : String)
      (kwargs : List (String × String)) : DEvent
  | attributeChanged (originator_id : Nat) (name value : String) : DEvent
  | discarded (originator_id : Nat) : DEvent
deriving DecidableEq

/-- The originator id carried by a plain event. -/
def DEvent.originatorId : DEvent → Nat
  | .created oid _ _ => oid
  | .attributeChanged oid _ _ => oid
  | .discarded oid => oid

/-- Whether a plain event is a Created event. -/
def DEvent.isCreated : DEvent → Bool
  | .created _ _ _ => true
  | _ => false

/--
DomainEntity.Event.check_obj (entity.py lines 70 through 84): raises
OriginatorIDError when the id of the target does not equal the originator id
of the event.
-/
def DEvent.checkObj (e : DEvent) (o : DEntity) : Option ESError :=
  if o._id ≠ e.originatorId then some ESError.originatorIDError else none

/--
Application of a plain event to an optional target, flattening the method
resolution order of each event class onto the base mutate method.

Modelled from the spec for the missing events.py base: DomainEvent.mutate
checks the target (check_obj) when it is present and returns it (the spec,
sections 2 and 4.1: invariant checks run before the variant-specific
mutation); each subclass extends it by calling the superclass method first.

- created (DomainEntity.Created.mutate, lines 149 through 158): resolves the
  originator topic and constructs the entity from the event kwargs
  (entity_kwargs, lines 160 through 166, renames originator_id to id and
  drops the topic); the target argument is ignored and no check runs.
- attributeChanged (lines 202 through 205): superclass mutate (checks), then
  setattr of the carried name and value.  On an absent target the check is
  skipped and the setattr raises (noneTypeError).
- discarded (lines 220 through 225): superclass mutate (checks), then the
  target is flagged discarded in place and None is returned.
-/
def DEvent.mutate : DEvent → Option DEntity → MutOut DEntity
  | .created oid topic kwargs, obj =>
      match resolve_topic topic with
      | Except.error er => ⟨some er, obj, none⟩
      | Except.ok _ =>
          ⟨none, obj, some ⟨oid, false, toDict kwargs⟩⟩
  | .attributeChanged oid name value, obj =>
      match obj with
      | none => ⟨some ESError.noneTypeError, none, none⟩
      | some o =>
          match DEvent.checkObj (.attributeChanged oid name value) o with
          | some er => ⟨some er, some o, none⟩
          | none =>
              let o2 : DEntity := { o with attrs := dictSet o.attrs name value }
              ⟨none, some o2, some o2⟩
  | .discarded oid, obj =>
      match obj with
      | none => ⟨none, none, none⟩
      | some o =>
          match DEvent.checkObj (.discarded oid) o with
          | some er => ⟨some er, some o, none⟩
          | none => ⟨none, some { o with isDiscarded := true }, none⟩

/-- Result of a trigger call: the propagated error if any, the state of the
triggering entity after the call (mutated in place), and the published event
(publish runs only when construction and mutation succeeded). -/
structure DTrigOut : Type where
  err : Option ESError
  entity : DEntity
  published : Option DEvent
deriving DecidableEq

/--
DomainEntity.trigger_event (entity.py lines 236 through 243): asserts the
entity is not discarded (lines 227 through 234, raising EntityIsDiscarded),
constructs the event with originator_id set to the entity id, applies it to
the entity in place, then publishes it.
-/
def DEntity.trigger (self : DEntity) (t : Trig) : DTrigOut :=
  if self.isDiscarded then ⟨some ESError.entityIsDiscarded, self, none⟩
  else
    let ev : DEvent :=
      match t with
      | .setAttr n v => DEvent.attributeChanged self._id n v
      | .discard => DEvent.discarded self._id
    let m := ev.mutate (some self)
    match m.err with
    | some er => ⟨some er, (m.obj).getD self, none⟩
    | none => ⟨none, (m.obj).getD self, some ev⟩

/--
DomainEntity.create (entity.py lines 86 through 128): constructs a Created
event whose originator topic is get_topic of the class, mutates an absent
target with it, asserts the result is present, publishes, and returns the
new entity together with the published event.
-/
def dCreate (originator_id : Nat) (kwargs : List (String × String)) :
    Option (DEntity × DEvent) :=
  let ev := DEvent.created originator_id domainEntityTopic kwargs
  match (ev.mutate none).ret with
  | some o => some (o, ev)
  | none => none

/-- Runs a list of trigger commands on a live entity, accumulating the
published events; stops at the first error. -/
def runTrigs : DEntity → List Trig → Option ESError × DEntity × List DEvent
  | e, [] => (none, e, [])
  | e, t :: ts =>
      let r := e.trigger t
      match r.err with
      | some er => (some er, r.entity, [])
      | none =>
          let rest := runTrigs r.entity ts
          (rest.1, rest.2.1,
            (match r.published with | some ev => [ev] | none => []) ++ rest.2.2)

/-- Live run: create a fresh entity, then run the trigger commands; returns
the final live entity state and the full recorded event sequence (the
Created event followed by the triggered events), or none when a step failed. -/
def liveRunD (originator_id : Nat) (kwargs : List (String × String))
    (ts : List Trig) : Option (DEntity × List DEvent) :=
  match dCreate originator_id kwargs with
  | none => none
  | some (e0, ev0) =>
      match runTrigs e0 ts with
      | (none, live, evs) => some (live, ev0 :: evs)
      | (some _, _, _) => none

/-- Replay: mutate an absent target with the first event, then each
subsequent event in order, threading the return value of each mutate call
(the replay entry point of the spec, section 4.1). -/
def replayD : Option DEntity → List DEvent → Option ESError × Option DEntity
  | obj, [] => (none, obj)
  | obj, ev :: evs =>
      let m := ev.mutate obj
      match m.err with
      | some er => (some er, none)
      | none => replayD m.ret evs

/--
DomainEntity.eq (entity.py lines 293 through 294): two entities are equal iff
they have the same concrete type and equal instance dictionaries.  Both sides
of the embedding share the one concrete type DEntity; the instance dictionary
comparison compares the scalar fields and the attribute dictionary by Python
dictionary equality.
-/
def DEntity.eq (a b : DEntity) : Bool :=
  a._id == b._id && a.isDiscarded == b.isDiscarded && dictEq a.attrs b.attrs

/-! ## Versioned entity (class VersionedEntity, entity.py lines 385 through 468) -/

/-- State of a versioned entity: the DomainEntity fields plus the version
counter set by VersionedEntity.init (line 388). -/
structure VEntity : Type where
  _id : Nat
  isDiscarded : Bool
  version : Nat
  attrs : List (String × String)
deriving DecidableEq

/-- Events of the versioned entity: each carries its originator id and, from
EventWithOriginatorVersion, an originator version (the version the entity
will have after the event is applied). -/
inductive VEvent : Type where
  | created (originator_id : Nat) (originator_topic : String)
      (originator_version : Nat) (kwargs : List (String × String)) : VEvent
  | attributeChanged (originator_id : Nat) (originator_version : Nat)
      (name value : String) : VEvent
  | discarded (originator_id : Nat) (originator_version : Nat) : VEvent
deriving DecidableEq

/-- The originator id carried by a versioned event. -/
def VEvent.originatorId : VEvent → Nat
  | .created oid _ _ _ => oid
  | .attributeChanged oid _ _ _ => oid
  | .discarded oid _ => oid

/-- The originator version carried by a versioned event. -/
def VEvent.originatorVersion : VEvent → Nat
  | .created _ _ ov _ => ov
  | .attributeChanged _ ov _ _ => ov
  | .discarded _ ov => ov

/-- Whether a versioned event is a Created event. -/
def VEvent.isCreated : VEvent → Bool
  | .created _ _ _ _ => true
  | _ => false

/--
VersionedEntity.Event.check_obj (entity.py lines 425 through 447): the
superclass check first (the id check of DomainEntity.Event.check_obj), then
OriginatorVersionError unless the originator version of the event equals the
current version of the entity plus one.
-/
def VEvent.checkObj (e : VEvent) (o : VEntity) : Option ESError :=
  if o._id ≠ e.originatorId then some ESError.originatorIDError
  else if e.originatorVersion ≠ o.version + 1 then
    some ESError.originatorVersionError
  else none

/--
Application of a versioned event, flattening the method resolution order.

- created: by the method resolution order of VersionedEntity.Created
  (line 449, DomainEntity.Created listed first), mutate is the
  DomainEntity.Created method: resolve the topic and construct the entity,
  with entity_kwargs (lines 457 through 462) renaming originator_version to
  the version field; no check runs and the target argument is ignored.
- attributeChanged: VersionedEntity.Event.mutate (lines 418 through 423)
  calls the superclass method (which runs the checks and performs the
  setattr) and then assigns the originator version to the entity version.
- discarded: the superclass chain runs the checks, flags the entity
  discarded in place and returns None; back in VersionedEntity.Event.mutate
  the returned target is None, so the version assignment is skipped (the
  in-place object keeps its old version) and None is returned.
-/
def VEvent.mutate : VEvent → Option VEntity → MutOut VEntity
  | .created oid topic ov kwargs, obj =>
      match resolve_topic topic with
      | Except.error er => ⟨some er, obj, none⟩
      | Except.ok _ =>
          ⟨none, obj, some ⟨oid, false, ov, toDict kwargs⟩⟩
  | .attributeChanged oid ov name value, obj =>
      match obj with
      | none => ⟨some ESError.noneTypeError, none, none⟩
      | some o =>
          match VEvent.checkObj (.attributeChanged oid ov name value) o with
          | some er => ⟨some er, some o, none⟩
          | none =>
              let o2 : VEntity :=
                { o with attrs := dictSet o.attrs name value, version := ov }
              ⟨none, some o2, some o2⟩
  | .discarded oid ov, obj =>
      match obj with
      | none => ⟨none, none, none⟩
      | some o =>
          match VEvent.checkObj (.discarded oid ov) o with
          | some er => ⟨some er, some o, none⟩
          | none => ⟨none, some { o with isDiscarded := true }, none⟩

/-- Result of a versioned trigger call. -/
structure VTrigOut : Type where
  err : Option ESError
  entity : VEntity
  published : Option VEvent
deriving DecidableEq

/--
VersionedEntity.trigger_event (entity.py lines 394 through 413): computes
next_version as the current version plus one and triggers the event with
that originator version; the superclass trigger (lines 236 through 243)
asserts the entity is not discarded, stamps the originator id, mutates in
place and publishes.
-/
def VEntity.trigger (self : VEntity) (t : Trig) : VTrigOut :=
  if self.isDiscarded then ⟨some ESError.entityIsDiscarded, self, none⟩
  else
    let nextVersion := self.version + 1
    let ev : VEvent :=
      match t with
      | .setAttr n v => VEvent.attributeChanged self._id nextVersion n v
      | .discard => VEvent.discarded self._id nextVersion
    let m := ev.mutate (some self)
    match m.err with
    | some er => ⟨some er, (m.obj).getD self, none⟩
    | none => ⟨none, (m.obj).getD self, some ev⟩

/--
Creation of a versioned entity: DomainEntity.create (lines 86 through 128)
with the Created event of VersionedEntity, whose constructor (line 452)
defaults originator_version to 0.
-/
def vCreate (originator_id : Nat) (kwargs : List (String × String)) :
    Option (VEntity × VEvent) :=
  let ev := VEvent.created originator_id versionedEntityTopic 0 kwargs
  match (ev.mutate none).ret with
  | some o => some (o, ev)
  | none => none

/-- Runs a list of trigger commands on a live versioned entity. -/
def runTrigsV : VEntity → List Trig → Option ESError × VEntity × List VEvent
  | e, [] => (none, e, [])
  | e, t :: ts =>
      let r := e.trigger t
      match r.err with
      | some er => (some er, r.entity, [])
      | none =>
          let rest := runTrigsV r.entity ts
          (rest.1, rest.2.1,
            (match r.published with | some ev => [ev] | none => []) ++ rest.2.2)

/-! ## Hash-chained entity (class EntityWithHashchain, entity.py lines 303
through 379) -/

/--
Modelled from the spec (sections 4.4 and 6) for the missing events.py:
GENESIS_HASH, the fixed initial chain value shared by all entities of a
type.
-/
def GENESIS_HASH : Nat := 4242

/-- One step of the modelled digest: mixes one more value into the running
digest. -/
def mixStep (h x : Nat) : Nat := h * 1000003 + x + 1

/-- Modelled from the spec (section 6): a deterministic digest of a string,
used for the string-valued fields of an event. -/
def strHash (s : String) : Nat :=
  s.data.foldl (fun h c => mixStep h c.toNat) 7

/-- Modelled digest of a keyword-argument dictionary. -/
def kwHash (kw : List (String × String)) : Nat :=
  kw.foldl (fun h p => mixStep (mixStep h (strHash p.1)) (strHash p.2)) 11

/-- State of a hash-chained entity: the DomainEntity fields plus the head
hash, initialised by EntityWithHashchain.init (line 308) to the genesis
hash. -/
structure HCEntity : Type where
  _id : Nat
  isDiscarded : Bool
  head : Nat
  attrs : List (String × String)
deriving DecidableEq

/-- Events of the hash-chained entity: each carries its originator id and,
from the trigger or creation path, the previous hash (the head of the chain
the event extends). -/
inductive HCEvent : Type where
  | created (originator_id : Nat) (originator_topic : String)
      (kwargs : List (String × String)) (previous_hash : Nat) : HCEvent
  | attributeChanged (originator_id : Nat) (name value : String)
      (previous_hash : Nat) : HCEvent
  | discarded (originator_id : Nat) (previous_hash : Nat) : HCEvent
deriving DecidableEq

/-- The originator id carried by a hash-chained event. -/
def HCEvent.originatorId : HCEvent → Nat
  | .created oid _ _ _ => oid
  | .attributeChanged oid _ _ _ => oid
  | .discarded oid _ => oid

/-- The previous hash carried by a hash-chained event. -/
def HCEvent.previousHash : HCEvent → Nat
  | .created _ _ _ ph => ph
  | .attributeChanged _ _ _ ph => ph
  | .discarded _ ph => ph

/-- Whether a hash-chained event is a Created event. -/
def HCEvent.isCreated : HCEvent → Bool
  | .created _ _ _ _ => true
  | _ => false

/-- Whether a hash-chained event is a Discarded event. -/
def HCEvent.isDiscarded : HCEvent → Bool
  | .discarded _ _ => true
  | _ => false

/--
Modelled from the spec (section 4.4) for the missing events.py: the event
hash of EventWithHash, a deterministic digest computed over the event field
values excluding the digest itself.  The digest mixes a variant tag and the
field values, folding in the previous hash last.
-/
def HCEvent.eventHash : HCEvent → Nat
  | .created oid topic kwargs ph =>
      mixStep (mixStep (mixStep (mixStep 5381 1) oid)
        (mixStep (strHash topic) (kwHash kwargs))) ph
  | .attributeChanged oid name value ph =>
      mixStep (mixStep (mixStep (mixStep 5381 2) oid)
        (mixStep (strHash name) (strHash value))) ph
  | .discarded oid ph =>
      mixStep (mixStep (mixStep 5381 3) oid) ph

/--
EntityWithHashchain.Event.check_obj (entity.py lines 327 through 337): the
superclass check first (the id check), then HeadHashError unless the head of
the entity equals the previous hash carried by the event.
-/
def HCEvent.checkObj (e : HCEvent) (o : HCEntity) : Option ESError :=
  if o._id ≠ e.originatorId then some ESError.originatorIDError
  else if o.head ≠ e.previousHash then some ESError.headHashError
  else none

/--
Application of a hash-chained event, flattening the method resolution order.

- created: by the method resolution order of EntityWithHashchain.Created
  (line 339, Event listed first), mutate is EntityWithHashchain.Event.mutate
  (lines 315 through 325): the superclass chain reaches
  DomainEntity.Created.mutate, which resolves the topic and constructs the
  entity (entity_kwargs of lines 340 through 349 drops the event hashes; the
  constructor at line 308 initialises the head to the genesis hash); the
  returned entity is present, so its head is then set to the event hash.
  No check runs and the target argument is ignored.
- attributeChanged (line 351): the superclass chain runs the checks (id,
  then head against previous hash) and performs the setattr; back in
  EntityWithHashchain.Event.mutate the head of the mutated entity is set to
  the event hash.
- discarded (lines 356 through 364): the head of the target is set to the
  event hash first, and only then is the superclass method called, so the
  checks of check_obj run against the already-updated head; on success the
  entity is flagged discarded in place and None is returned, and the final
  head assignment of EntityWithHashchain.Event.mutate is skipped because the
  returned target is None.
-/
def HCEvent.mutate : HCEvent → Option HCEntity → MutOut HCEntity
  | .created oid topic kwargs ph, obj =>
      match resolve_topic topic with
      | Except.error er => ⟨some er, obj, none⟩
      | Except.ok _ =>
          let newEnt : HCEntity := ⟨oid, false, GENESIS_HASH, toDict kwargs⟩
          let newEnt2 : HCEntity :=
            { newEnt with head := HCEvent.eventHash (.created oid topic kwargs ph) }
          ⟨none, obj, some newEnt2⟩
  | .attributeChanged oid name value ph, obj =>
      match obj with
      | none => ⟨some ESError.noneTypeError, none, none⟩
      | some o =>
          match HCEvent.checkObj (.attributeChanged oid name value ph) o with
          | some er => ⟨some er, some o, none⟩
          | none =>
              let o2 : HCEntity :=
                { o with attrs := dictSet o.attrs name value,
                         head := HCEvent.eventHash (.attributeChanged oid name value ph) }
              ⟨none, some o2, some o2⟩
  | .discarded oid ph, obj =>
      match obj with
      | none => ⟨none, none, none⟩
      | some o =>
          let o1 : HCEntity :=
            { o with head := HCEvent.eventHash (.discarded oid ph) }
          match HCEvent.checkObj (.discarded oid ph) o1 with
          | some er => ⟨some er, some o1, none⟩
          | none => ⟨none, some { o1 with isDiscarded := true }, none⟩

/-- Result of a hash-chained trigger call. -/
structure HCTrigOut : Type where
  err : Option ESError
  entity : HCEntity
  published : Option HCEvent
deriving DecidableEq

/--
EntityWithHashchain.trigger_event (entity.py lines 377 through 379): stamps
the current head of the entity as the previous hash of the event, then the
superclass trigger asserts the entity is not discarded, stamps the
originator id, mutates in place and publishes.
-/
def HCEntity.trigger (self : HCEntity) (t : Trig) : HCTrigOut :=
  if self.isDiscarded then ⟨some ESError.entityIsDiscarded, self, none⟩
  else
    let ev : HCEvent :=
      match t with
      | .setAttr n v => HCEvent.attributeChanged self._id n v self.head
      | .discard => HCEvent.discarded self._id self.head
    let m := ev.mutate (some self)
    match m.err with
    | some er => ⟨some er, (m.obj).getD self, none⟩
    | none => ⟨none, (m.obj).getD self, some ev⟩

/--
EntityWithHashchain.create (entity.py lines 366 through 375): seeds the
previous hash of the Created event with the genesis hash, then the
superclass create constructs the event, mutates an absent target with it and
publishes.
-/
def hcCreate (originator_id : Nat) (kwargs : List (String × String)) :
    Option (HCEntity × HCEvent) :=
  let ev := HCEvent.created originator_id hashchainEntityTopic kwargs GENESIS_HASH
  match (ev.mutate none).ret with
  | some o => some (o, ev)
  | none => none

/-! ## Timestamped entity (class TimestampedEntity, entity.py lines 474
through 513) -/

/-- State of a timestamped entity: the DomainEntity fields plus created_on
and last_modified, both set by TimestampedEntity.init (lines 475 through
478) from the created_on constructor argument. -/
structure TEntity : Type where
  _id : Nat
  isDiscarded : Bool
  createdOn : Nat
  lastModified : Nat
  attrs : List (String × String)
deriving DecidableEq

/-- Events of the timestamped entity: each carries its originator id and,
from EventWithTimestamp, a timestamp.  Timestamps are modelled as natural
numbers supplied by the caller (the clock is an external collaborator). -/
inductive TEvent : Type where
  | created (originator_id : Nat) (originator_topic : String)
      (timestamp : Nat) (kwargs : List (String × String)) : TEvent
  | attributeChanged (originator_id : Nat) (timestamp : Nat)
      (name value : String) : TEvent
  | discarded (originator_id : Nat) (timestamp : Nat) : TEvent
deriving DecidableEq

/-- The originator id carried by a timestamped event. -/
def TEvent.originatorId : TEvent → Nat
  | .created oid _ _ _ => oid
  | .attributeChanged oid _ _ _ => oid
  | .discarded oid _ => oid

/-- The timestamp carried by a timestamped event. -/
def TEvent.timestamp : TEvent → Nat
  | .created _ _ ts _ => ts
  | .attributeChanged _ ts _ _ => ts
  | .discarded _ ts => ts

/-- Whether a timestamped event is a Created event. -/
def TEvent.isCreated : TEvent → Bool
  | .created _ _ _ _ => true
  | _ => false

/-- The check of a timestamped event is the inherited id check of
DomainEntity.Event.check_obj (the timestamping extension adds no check). -/
def TEvent.checkObj (e : TEvent) (o : TEntity) : Option ESError :=
  if o._id ≠ e.originatorId then some ESError.originatorIDError else none

/--
Application of a timestamped event, flattening the method resolution order.

- created: by the method resolution order of TimestampedEntity.Created
  (line 499, DomainEntity.Created listed first), mutate is the
  DomainEntity.Created method: resolve the topic and construct the entity,
  with entity_kwargs (lines 502 through 507) renaming timestamp to
  created_on; the constructor (lines 475 through 478) sets both created_on
  and last_modified from it.  No check runs.
- attributeChanged: the superclass chain runs the id check and performs the
  setattr; back in TimestampedEntity.Event.mutate (lines 491 through 497)
  last_modified is set to the event timestamp.
- discarded: the superclass chain runs the id check, flags the entity
  discarded in place and returns None; the last_modified assignment is
  skipped because the returned target is None.
-/
def TEvent.mutate : TEvent → Option TEntity → MutOut TEntity
  | .created oid topic ts kwargs, obj =>
      match resolve_topic topic with
      | Except.error er => ⟨some er, obj, none⟩
      | Except.ok _ =>
          ⟨none, obj, some ⟨oid, false, ts, ts, toDict kwargs⟩⟩
  | .attributeChanged oid ts name value, obj =>
      match obj with
      | none => ⟨some ESError.noneTypeError, none, none⟩
      | some o =>
          match TEvent.checkObj (.attributeChanged oid ts name value) o with
          | some er => ⟨some er, some o, none⟩
          | none =>
              let o2 : TEntity :=
                { o with attrs := dictSet o.attrs name value, lastModified := ts }
              ⟨none, some o2, some o2⟩
  | .discarded oid ts, obj =>
      match obj with
      | none => ⟨none, none, none⟩
      | some o =>
          match TEvent.checkObj (.discarded oid ts) o with
          | some er => ⟨some er, some o, none⟩
          | none => ⟨none, some { o with isDiscarded := true }, none⟩

/--
Creation of a timestamped entity: DomainEntity.create with the Created event
of TimestampedEntity, carrying the timestamp supplied by the clock
collaborator.
-/
def tCreate (originator_id : Nat) (ts : Nat) (kwargs : List (String × String)) :
    Option (TEntity × TEvent) :=
  let ev := TEvent.created originator_id timestampedEntityTopic ts kwargs
  match (ev.mutate none).ret with
  | some o => some (o, ev)
  | none => none

/-! ## Dictionary lemmas -/

lemma mem_keys_dictSet {x k v : String} :
    ∀ {d : List (String × String)},
      x ∈ (dictSet d k v).map Prod.fst ↔ x ∈ d.map Prod.fst ∨ x = k := by
  intro d
  induction d with
  | nil => simp [dictSet]
  | cons p rest ih =>
      obtain ⟨k2, v2⟩ := p
      by_cases hk : k2 = k
      · subst hk
        have hred : dictSet ((k2, v2) :: rest) k2 v = (k2, v) :: rest := by
          simp [dictSet]
        rw [hred]
        simp only [List.map_cons, List.mem_cons]
        tauto
      · simp only [dictSet, if_neg hk, List.map_cons, List.mem_cons, ih]
        tauto

lemma keysNodup_dictSet {d : List (String × String)} {k v : String}
    (h : keysNodup d) : keysNodup (dictSet d k v) := by
  induction d with
  | nil => simp [dictSet, keysNodup]
  | cons p rest ih =>
      obtain ⟨k2, v2⟩ := p
      simp only [keysNodup, List.map_cons, List.nodup_cons] at h
      by_cases hk : k2 = k
      · subst hk
        simpa [dictSet, keysNodup] using h
      · have h2 := ih h.2
        simp only [dictSet, if_neg hk, keysNodup, List.map_cons, List.nodup_cons]
        refine ⟨?_, h2⟩
        intro hmem
        rcases mem_keys_dictSet.mp hmem with hmem2 | hmem2
        · exact h.1 hmem2
        · exact hk hmem2

lemma keysNodup_foldl (ps : List (String × String)) :
    ∀ d : List (String × String), keysNodup d →
      keysNodup (ps.foldl (fun d p => dictSet d p.1 p.2) d) := by
  induction ps with
  | nil => intro d h; simpa using h
  | cons p rest ih =>
      intro d h
      simpa using ih (dictSet d p.1 p.2) (keysNodup_dictSet h)

lemma keysNodup_toDict (ps : List (String × String)) : keysNodup (toDict ps) := by
  have h : keysNodup ([] : List (String × String)) := by simp [keysNodup]
  simpa [toDict] using keysNodup_foldl ps [] h

lemma dictGet_of_mem {d : List (String × String)} {k v : String}
    (h : keysNodup d) (hm : (k, v) ∈ d) : dictGet d k = some v := by
  induction d with
  | nil => cases hm
  | cons p rest ih =>
      obtain ⟨k2, v2⟩ := p
      simp only [keysNodup, List.map_cons, List.nodup_cons] at h
      rcases List.mem_cons.mp hm with hm2 | hm2
      · injection hm2 with hk hv
        subst hk; subst hv
        simp [dictGet]
      · have hk2 : k2 ≠ k := by
          intro hk
          subst hk
          exact h.1 (List.mem_map.mpr ⟨(k2, v), hm2, rfl⟩)
        simp only [dictGet, if_neg hk2]
        exact ih h.2 hm2

lemma dictLeq_refl {d : List (String × String)} (h : keysNodup d) :
    dictLeq d d = true := by
  simp only [dictLeq, List.all_eq_true]
  intro p hp
  obtain ⟨k, v⟩ := p
  simp [dictGet_of_mem h hp]

lemma dictEq_refl {d : List (String × String)} (h : keysNodup d) :
    dictEq d d = true := by
  simp [dictEq, dictLeq_refl h]

lemma DEntity.eq_refl {e : DEntity} (h : keysNodup e.attrs) :
    DEntity.eq e e = true := by
  simp [DEntity.eq, dictEq_refl h]

/-! ## Behaviour of the plain model on the trigger and replay paths -/

lemma mutate_attributeChanged_self (e : DEntity) (n v : String) :
    DEvent.mutate (.attributeChanged e._id n v) (some e) =
      ⟨none, some { e with attrs := dictSet e.attrs n v },
        some { e with attrs := dictSet e.attrs n v }⟩ := by
  simp [DEvent.mutate, DEvent.checkObj, DEvent.originatorId]

lemma trigger_setAttr (e : DEntity) (h : e.isDiscarded = false) (n v : String) :
    e.trigger (.setAttr n v) =
      ⟨none, { e with attrs := dictSet e.attrs n v },
        some (DEvent.attributeChanged e._id n v)⟩ := by
  simp [DEntity.trigger, h, mutate_attributeChanged_self]

lemma runTrigs_spec (ts : List Trig) (hnd : Trig.discard ∉ ts) :
    ∀ e : DEntity, e.isDiscarded = false → keysNodup e.attrs →
      (runTrigs e ts).1 = none ∧
      (runTrigs e ts).2.1.isDiscarded = false ∧
      keysNodup (runTrigs e ts).2.1.attrs ∧
      replayD (some e) (runTrigs e ts).2.2 = (none, some (runTrigs e ts).2.1) := by
  induction ts with
  | nil =>
      intro e hd hn
      exact ⟨rfl, hd, hn, rfl⟩
  | cons t ts ih =>
      intro e hd hn
      have hndt : t ≠ Trig.discard := by
        intro hEq; exact hnd (hEq ▸ List.mem_cons_self t ts)
      have hnd2 : Trig.discard ∉ ts := fun hmem => hnd (List.mem_cons_of_mem t hmem)
      cases t with
      | discard => exact absurd rfl hndt
      | setAttr n v =>
          have htr := trigger_setAttr e hd n v
          have ih2 := ih hnd2 { e with attrs := dictSet e.attrs n v } (by simpa using hd)
            (by simpa using keysNodup_dictSet hn)
          simp only [runTrigs, htr]
          refine ⟨ih2.1, ih2.2.1, ih2.2.2.1, ?_⟩
          simp only [List.singleton_append, replayD, mutate_attributeChanged_self]
          exact ih2.2.2.2

lemma dCreate_eq (oid : Nat) (kwargs : List (String × String)) :
    dCreate oid kwargs =
      some (⟨oid, false, toDict kwargs⟩,
        DEvent.created oid domainEntityTopic kwargs) := rfl

/--
Claim C1 (amended to sequences of valid non-discard triggers): for every
fresh entity and every sequence of valid non-discard triggers on it,
replaying the resulting recorded event sequence from scratch via apply
(mutating an absent target with the Created event, then each subsequent
event in order) produces an entity equal, by the field-by-field equality of
DomainEntity.eq, to the one produced by live triggering.
-/
theorem claimC1_replay_reproduces_live (oid : Nat)
    (kwargs : List (String × String)) (ts : List Trig)
    (hnd : Trig.discard ∉ ts) (live : DEntity) (evs : List DEvent)
    (h : liveRunD oid kwargs ts = some (live, evs)) :
    (replayD none evs).1 = none ∧
    (replayD none evs).2.elim False (fun rep => DEntity.eq live rep = true) := by
  have hspec := runTrigs_spec ts hnd ⟨oid, false, toDict kwargs⟩ rfl
    (keysNodup_toDict kwargs)
  rcases hrt : runTrigs ⟨oid, false, toDict kwargs⟩ ts with ⟨er, live2, evs2⟩
  rw [hrt] at hspec
  obtain ⟨h1, h2, h3, h4⟩ := hspec
  simp only at h1 h2 h3 h4
  subst h1
  simp only [liveRunD, dCreate_eq] at h
  rw [hrt] at h
  simp only [Option.some.injEq, Prod.mk.injEq] at h
  obtain ⟨hlive, hevs⟩ := h
  subst hlive
  subst hevs
  have hcre : DEvent.mutate (DEvent.created oid domainEntityTopic kwargs) none =
      ⟨none, none, some ⟨oid, false, toDict kwargs⟩⟩ := rfl
  simp only [replayD, hcre, h4]
  exact ⟨trivial, DEntity.eq_refl h3⟩

/--
Claim C1 counterexample: the claim as stated fails on trigger sequences that
end with a discard.  For the fresh entity with id 1 and attribute a set to
the string a, the single valid trigger discard produces, live, the entity
flagged discarded (the in-place object of trigger_event, lines 236 through
243, after Discarded.mutate at lines 220 through 225 set the flag), while
replaying the two recorded events from scratch returns an absent result
(none): no entity equal to the live one is produced.
-/
theorem claimC1_counterexample :
    liveRunD 1 [("a", "a")] [Trig.discard] =
      some (⟨1, true, [("a", "a")]⟩,
        [DEvent.created 1 domainEntityTopic [("a", "a")], DEvent.discarded 1]) ∧
    replayD none
      [DEvent.created 1 domainEntityTopic [("a", "a")], DEvent.discarded 1] =
      (none, none) := by
  exact ⟨rfl, rfl⟩

/-- Claim C1 witness: the amended theorem applied at a concrete input. -/
theorem claimC1_witness :
    (replayD none [DEvent.created 1 domainEntityTopic [("a", "a")],
      DEvent.attributeChanged 1 "a" "x"]).1 = none ∧
    (replayD none [DEvent.created 1 domainEntityTopic [("a", "a")],
      DEvent.attributeChanged 1 "a" "x"]).2.elim False
        (fun rep => DEntity.eq ⟨1, false, [("a", "x")]⟩ rep = true) :=
  claimC1_replay_reproduces_live 1 [("a", "a")] [Trig.setAttr "a" "x"]
    (by decide) ⟨1, false, [("a", "x")]⟩
    [DEvent.created 1 domainEntityTopic [("a", "a")],
      DEvent.attributeChanged 1 "a" "x"] (by rfl)

/--
Claim C6: for every already-discarded entity, any further trigger (attribute
change or discard) fails with the discarded-entity error
(assert_not_discarded, entity.py lines 227 through 234, called first by
trigger_event at line 240), the entity state is unchanged, and no event is
constructed, applied or published (the trigger result carries no published
event and the guard precedes event construction in the definition of
trigger).
-/
theorem claimC6_discarded_trigger_fails (e : DEntity) (t : Trig)
    (h : e.isDiscarded = true) :
    e.trigger t = ⟨some ESError.entityIsDiscarded, e, none⟩ := by
  simp [DEntity.trigger, h]

/-- Claim C6 witness: the theorem applied to a concrete discarded entity. -/
theorem claimC6_witness :
    DEntity.trigger ⟨7, true, [("a", "a")]⟩ (Trig.setAttr "a" "b") =
      ⟨some ESError.entityIsDiscarded, ⟨7, true, [("a", "a")]⟩, none⟩ :=
  claimC6_discarded_trigger_fails ⟨7, true, [("a", "a")]⟩
    (Trig.setAttr "a" "b") rfl

/--
Claim C7: applying a Discarded event whose invariant check passes (for the
plain domain entity the only check is the id check) marks the target entity
as discarded in place and returns an absent result (Discarded.mutate,
entity.py lines 220 through 225, returns None), rather than the mutated
entity.
-/
theorem claimC7_discarded_returns_absent (o : DEntity) (oid : Nat)
    (h : oid = o._id) :
    DEvent.mutate (.discarded oid) (some o) =
      ⟨none, some { o with isDiscarded := true }, none⟩ := by
  subst h
  simp [DEvent.mutate, DEvent.checkObj, DEvent.originatorId]

/-- Claim C7 witness: the theorem applied to a concrete entity. -/
theorem claimC7_witness :
    DEvent.mutate (.discarded 3) (some ⟨3, false, [("a", "a")]⟩) =
      ⟨none, some ⟨3, true, [("a", "a")]⟩, none⟩ :=
  claimC7_discarded_returns_absent ⟨3, false, [("a", "a")]⟩ 3 rfl

/--
Claim C8 counterexample: the claim as stated fails, because constructing a
Created event does not resolve the topic at all.  Created.init (entity.py
lines 135 through 138) only stores the originator topic among the event
fields; resolution happens when the event is applied (resolve_topic inside
Created.mutate, line 157).  At the concrete topic string below, which the
topic-resolution registry does not know, the Created event is nonetheless a
well-formed value still carrying the unresolved topic, and the
TopicResolutionError surfaces only when the event is applied.
-/
theorem claimC8_counterexample :
    resolve_topic "entity#NoSuchClass" =
      Except.error ESError.topicResolutionError ∧
    (DEvent.created 9 "entity#NoSuchClass" [("a", "a")]).isCreated = true ∧
    DEvent.mutate (DEvent.created 9 "entity#NoSuchClass" [("a", "a")]) none =
      ⟨some ESError.topicResolutionError, none, none⟩ := by
  exact ⟨rfl, rfl, rfl⟩

/--
Claim C8 (amended): constructing a Created event with an unresolvable
originator_topic succeeds (construction stores the topic unresolved), and it
is applying (mutating with) such a Created event that fails with
TopicResolutionError, a distinct error kind, not a generic error.
-/
theorem claimC8_unknown_topic_apply_fails (oid : Nat) (topic : String)
    (kwargs : List (String × String)) (obj : Option DEntity)
    (h : resolve_topic topic = Except.error ESError.topicResolutionError) :
    DEvent.mutate (DEvent.created oid topic kwargs) obj =
      ⟨some ESError.topicResolutionError, obj, none⟩ := by
  simp [DEvent.mutate, h]

/-- Claim C8 witness: the amended theorem applied at a concrete unknown
topic. -/
theorem claimC8_witness :
    DEvent.mutate (DEvent.created 9 "entity#NoSuchClass" []) none =
      ⟨some ESError.topicResolutionError, none, none⟩ :=
  claimC8_unknown_topic_apply_fails 9 "entity#NoSuchClass" [] none (by rfl)

/--
Claim C10: every event constructed through the trigger path carries an
originator id equal to the id of the triggering entity (trigger_event,
entity.py line 241, stamps originator_id with self.id), so the identity
invariant check of Event.check_obj (lines 70 through 84) passes for every
self-triggered event and OriginatorIDError is never raised on the trigger
path.
-/
theorem claimC10_trigger_identity (e : DEntity) (t : Trig) :
    ((e.trigger t).published.all fun ev => ev.originatorId == e._id) = true ∧
    (e.trigger t).err ≠ some ESError.originatorIDError := by
  cases hd : e.isDiscarded with
  | true => simp [DEntity.trigger, hd]
  | false =>
      cases t with
      | setAttr n v => simp [trigger_setAttr e hd n v, DEvent.originatorId]
      | discard =>
          simp [DEntity.trigger, hd, DEvent.mutate, DEvent.checkObj,
            DEvent.originatorId]

/-- Claim C10 witness: the theorem applied at a concrete entity and
trigger. -/
theorem claimC10_witness :
    ((DEntity.trigger ⟨5, false, []⟩ (Trig.setAttr "a" "b")).published.all
      fun ev => ev.originatorId == 5) = true ∧
    (DEntity.trigger ⟨5, false, []⟩ (Trig.setAttr "a" "b")).err ≠
      some ESError.originatorIDError :=
  claimC10_trigger_identity ⟨5, false, []⟩ (Trig.setAttr "a" "b")

/-! ## Versioned entity claims -/

lemma vtrigger_setAttr (e : VEntity) (h : e.isDiscarded = false)
    (n v : String) :
    e.trigger (.setAttr n v) =
      ⟨none, { e with attrs := dictSet e.attrs n v, version := e.version + 1 },
        some (VEvent.attributeChanged e._id (e.version + 1) n v)⟩ := by
  simp [VEntity.trigger, h, VEvent.mutate, VEvent.checkObj,
    VEvent.originatorId, VEvent.originatorVersion]

lemma runTrigsV_spec (ts : List Trig) (hnd : Trig.discard ∉ ts) :
    ∀ e : VEntity, e.isDiscarded = false →
      (runTrigsV e ts).1 = none ∧
      (runTrigsV e ts).2.1.isDiscarded = false ∧
      (runTrigsV e ts).2.1.version = e.version + ts.length := by
  induction ts with
  | nil =>
      intro e hd
      exact ⟨rfl, hd, rfl⟩
  | cons t ts ih =>
      intro e hd
      have hndt : t ≠ Trig.discard := by
        intro hEq; exact hnd (hEq ▸ List.mem_cons_self t ts)
      have hnd2 : Trig.discard ∉ ts := fun hmem => hnd (List.mem_cons_of_mem t hmem)
      cases t with
      | discard => exact absurd rfl hndt
      | setAttr n v =>
          have htr := vtrigger_setAttr e hd n v
          have ih2 := ih hnd2
            { e with attrs := dictSet e.attrs n v, version := e.version + 1 }
            (by simpa using hd)
          simp only [runTrigsV, htr]
          refine ⟨ih2.1, ih2.2.1, ?_⟩
          have h3 := ih2.2.2
          simp only at h3
          simp only [h3, List.length_cons]
          omega

/--
Claim C2: for every versioned entity, (1) the version is 0 immediately after
creation, since the Created event carries originator_version 0 by default
(entity.py line 452) and entity_kwargs renames it to the version field
(lines 457 through 462); (2) after N successful non-discard triggers the
version equals N, since trigger_event stamps the current version plus one
(lines 394 through 413) and Event.mutate assigns it (lines 418 through 423);
(3) every successful apply that yields an entity sets that entity version to
the originator version of the applied event (a successful Discarded apply
yields an absent result instead of an entity).
-/
theorem claimC2_version_tracking :
    (∀ (oid : Nat) (kwargs : List (String × String)) (e0 : VEntity)
        (ev0 : VEvent), vCreate oid kwargs = some (e0, ev0) →
        e0.version = 0) ∧
    (∀ (oid : Nat) (kwargs : List (String × String)) (ts : List Trig)
        (e0 : VEntity) (ev0 : VEvent), Trig.discard ∉ ts →
        vCreate oid kwargs = some (e0, ev0) →
        (runTrigsV e0 ts).1 = none ∧
        (runTrigsV e0 ts).2.1.version = ts.length) ∧
    (∀ (ev : VEvent) (obj : Option VEntity) (o2 : VEntity),
        (VEvent.mutate ev obj).err = none →
        (VEvent.mutate ev obj).ret = some o2 →
        o2.version = ev.originatorVersion) := by
  refine ⟨?_, ?_, ?_⟩
  · intro oid kwargs e0 ev0 h
    have h2 : vCreate oid kwargs =
        some (⟨oid, false, 0, toDict kwargs⟩,
          VEvent.created oid versionedEntityTopic 0 kwargs) := rfl
    rw [h2] at h
    simp only [Option.some.injEq, Prod.mk.injEq] at h
    rw [← h.1]
  · intro oid kwargs ts e0 ev0 hnd h
    have h2 : vCreate oid kwargs =
        some (⟨oid, false, 0, toDict kwargs⟩,
          VEvent.created oid versionedEntityTopic 0 kwargs) := rfl
    rw [h2] at h
    simp only [Option.some.injEq, Prod.mk.injEq] at h
    obtain ⟨he0, _⟩ := h
    subst he0
    have hspec := runTrigsV_spec ts hnd ⟨oid, false, 0, toDict kwargs⟩ rfl
    exact ⟨hspec.1, by simpa using hspec.2.2⟩
  · intro ev obj o2 herr hret
    cases ev with
    | created oid topic ov kwargs =>
        cases hres : resolve_topic topic with
        | error er =>
            rw [VEvent.mutate, hres] at herr
            cases herr
        | ok u =>
            rw [VEvent.mutate, hres] at hret
            simp only [Option.some.injEq] at hret
            rw [← hret, VEvent.originatorVersion]
    | attributeChanged oid ov n v =>
        cases obj with
        | none => rw [VEvent.mutate] at herr; cases herr
        | some o =>
            rw [VEvent.mutate] at herr hret
            cases hchk : VEvent.checkObj (.attributeChanged oid ov n v) o with
            | some er => rw [hchk] at herr; cases herr
            | none =>
                rw [hchk] at hret
                simp only [Option.some.injEq] at hret
                rw [← hret, VEvent.originatorVersion]
    | discarded oid ov =>
        cases obj with
        | none => rw [VEvent.mutate] at hret; cases hret
        | some o =>
            rw [VEvent.mutate] at hret
            cases hchk : VEvent.checkObj (.discarded oid ov) o with
            | some er => rw [hchk] at hret; cases hret
            | none => rw [hchk] at hret; cases hret

/-- Claim C2 witness: after creating a versioned entity (version 0) and
applying two attribute-change triggers, the version is 2; and the concrete
successful apply of an attribute change carrying originator version 1 sets
the version of the produced entity to 1. -/
theorem claimC2_witness :
    ((runTrigsV ⟨1, false, 0, [("a", "a")]⟩
        [Trig.setAttr "a" "x", Trig.setAttr "b" "y"]).1 = none ∧
      (runTrigsV ⟨1, false, 0, [("a", "a")]⟩
        [Trig.setAttr "a" "x", Trig.setAttr "b" "y"]).2.1.version = 2) ∧
    VEntity.version ⟨2, false, 1, [("a", "x")]⟩ =
      VEvent.originatorVersion (VEvent.attributeChanged 2 1 "a" "x") := by
  refine ⟨?_, ?_⟩
  · exact claimC2_version_tracking.2.1 1 [("a", "a")]
      [Trig.setAttr "a" "x", Trig.setAttr "b" "y"]
      ⟨1, false, 0, [("a", "a")]⟩
      (VEvent.created 1 versionedEntityTopic 0 [("a", "a")]) (by decide) (by rfl)
  · exact claimC2_version_tracking.2.2 (VEvent.attributeChanged 2 1 "a" "x")
      (some ⟨2, false, 0, []⟩) ⟨2, false, 1, [("a", "x")]⟩ (by rfl) (by rfl)

/--
Claim C3: for every versioned entity whose identity check has passed,
applying a non-Created event fails with OriginatorVersionError (the
VersionConflictError of the spec) if and only if the originator version of
the event is not exactly the current version of the entity plus one
(Event.check_obj, entity.py lines 425 through 447) — both when the version
is stale and when it skips ahead.
-/
theorem claimC3_version_conflict_iff (o : VEntity) (ev : VEvent)
    (hid : ev.originatorId = o._id) (hnc : ev.isCreated = false) :
    (VEvent.mutate ev (some o)).err = some ESError.originatorVersionError ↔
      ev.originatorVersion ≠ o.version + 1 := by
  cases ev with
  | created oid topic ov kwargs => cases hnc
  | attributeChanged oid ov n v =>
      rw [VEvent.originatorId] at hid
      by_cases hv : ov = o.version + 1
      · simp [VEvent.mutate, VEvent.checkObj, VEvent.originatorId,
          VEvent.originatorVersion, hid, hv]
      · simp [VEvent.mutate, VEvent.checkObj, VEvent.originatorId,
          VEvent.originatorVersion, hid, hv]
  | discarded oid ov =>
      rw [VEvent.originatorId] at hid
      by_cases hv : ov = o.version + 1
      · simp [VEvent.mutate, VEvent.checkObj, VEvent.originatorId,
          VEvent.originatorVersion, hid, hv]
      · simp [VEvent.mutate, VEvent.checkObj, VEvent.originatorId,
          VEvent.originatorVersion, hid, hv]

/-- Claim C3 witness: at an entity of version 1, an event carrying
originator version 1 (stale, a double apply) and an event carrying
originator version 5 (skipping ahead) both instantiate the equivalence. -/
theorem claimC3_witness :
    ((VEvent.mutate (VEvent.attributeChanged 2 1 "a" "x")
        (some ⟨2, false, 1, []⟩)).err = some ESError.originatorVersionError ↔
      (1 : Nat) ≠ 1 + 1) ∧
    ((VEvent.mutate (VEvent.discarded 2 5) (some ⟨2, false, 1, []⟩)).err =
        some ESError.originatorVersionError ↔ (5 : Nat) ≠ 1 + 1) :=
  ⟨claimC3_version_conflict_iff ⟨2, false, 1, []⟩
      (VEvent.attributeChanged 2 1 "a" "x") rfl rfl,
    claimC3_version_conflict_iff ⟨2, false, 1, []⟩
      (VEvent.discarded 2 5) rfl rfl⟩

/-! ## Hash-chained entity claims -/

lemma previousHash_lt_eventHash (ev : HCEvent) :
    ev.previousHash < ev.eventHash := by
  cases ev <;>
    simp only [HCEvent.eventHash, HCEvent.previousHash, mixStep] <;>
    omega

/--
Claim C4: for every hash-chained entity and every successfully applied
event, the head of the resulting entity equals the event hash of the
just-applied event.  The resulting entity is the returned one for events
that return an entity, and for Discarded events (which return an absent
result) it is the in-place target, whose head is updated by
Discarded.mutate (entity.py lines 356 through 364) before the entity is
marked absent.  Created events set the head of the newly constructed entity
(Event.mutate, lines 315 through 325); AttributeChanged events set it on the
mutated target.
-/
theorem claimC4_head_equals_event_hash (ev : HCEvent) (obj : Option HCEntity)
    (o2 : HCEntity) (herr : (HCEvent.mutate ev obj).err = none)
    (h2 : (HCEvent.mutate ev obj).ret = some o2 ∨
      (ev.isCreated = false ∧ (HCEvent.mutate ev obj).obj = some o2)) :
    o2.head = ev.eventHash := by
  cases ev with
  | created oid topic kwargs ph =>
      rcases h2 with hret | ⟨hc, _⟩
      · cases hres : resolve_topic topic with
        | error er => rw [HCEvent.mutate, hres] at herr; cases herr
        | ok u =>
            rw [HCEvent.mutate, hres] at hret
            simp only [Option.some.injEq] at hret
            rw [← hret]
      · cases hc
  | attributeChanged oid n v ph =>
      cases obj with
      | none => rw [HCEvent.mutate] at herr; cases herr
      | some o =>
          cases hchk : HCEvent.checkObj (.attributeChanged oid n v ph) o with
          | some er => rw [HCEvent.mutate, hchk] at herr; cases herr
          | none =>
              rcases h2 with hret | ⟨_, hobj⟩
              · rw [HCEvent.mutate, hchk] at hret
                simp only [Option.some.injEq] at hret
                rw [← hret]
              · rw [HCEvent.mutate, hchk] at hobj
                simp only [Option.some.injEq] at hobj
                rw [← hobj]
  | discarded oid ph =>
      cases obj with
      | none =>
          rcases h2 with hret | ⟨_, hobj⟩
          · rw [HCEvent.mutate] at hret; cases hret
          · rw [HCEvent.mutate] at hobj; cases hobj
      | some o =>
          cases hchk : HCEvent.checkObj (.discarded oid ph)
              { o with head := HCEvent.eventHash (.discarded oid ph) } with
          | some er => rw [HCEvent.mutate, hchk] at herr; cases herr
          | none =>
              rcases h2 with hret | ⟨_, hobj⟩
              · rw [HCEvent.mutate, hchk] at hret; cases hret
              · rw [HCEvent.mutate, hchk] at hobj
                simp only [Option.some.injEq] at hobj
                rw [← hobj]

/-- Claim C4 witness: a concrete successful attribute-change apply on a
fresh hash-chained entity produces an entity whose head is the event
hash. -/
theorem claimC4_witness :
    HCEntity.head
        ⟨1, false,
          HCEvent.eventHash (HCEvent.attributeChanged 1 "a" "x" GENESIS_HASH),
          [("a", "x")]⟩ =
      HCEvent.eventHash (HCEvent.attributeChanged 1 "a" "x" GENESIS_HASH) :=
  claimC4_head_equals_event_hash
    (HCEvent.attributeChanged 1 "a" "x" GENESIS_HASH)
    (some ⟨1, false, GENESIS_HASH, []⟩)
    ⟨1, false,
      HCEvent.eventHash (HCEvent.attributeChanged 1 "a" "x" GENESIS_HASH),
      [("a", "x")]⟩
    (by rfl) (Or.inl (by rfl))

/--
Claim C5 counterexample: the claim as stated fails on Discarded events.  At
the concrete hash-chained entity with head 42, applying a Discarded event
whose previous hash 7 does not equal the head does fail with HeadHashError
(the HashChainError of the spec), but the fields of the entity are NOT left
unmodified: Discarded.mutate (entity.py lines 356 through 364) assigns the
event hash to the head of the target before calling the superclass method
that runs the check, so when the error is raised the head has already
changed.
-/
theorem claimC5_counterexample :
    (HCEvent.mutate (HCEvent.discarded 3 7) (some ⟨3, false, 42, []⟩)).err =
      some ESError.headHashError ∧
    (HCEvent.mutate (HCEvent.discarded 3 7) (some ⟨3, false, 42, []⟩)).obj ≠
      some ⟨3, false, 42, []⟩ := by
  exact ⟨rfl, by decide⟩

/--
Claim C5 (amended): for every hash-chained entity, applying a non-Created
event whose identity check passes and whose previous hash does not equal the
current head of the entity fails with HeadHashError (the HashChainError of
the spec); for AttributeChanged events the fields of the entity are left
unmodified, but for Discarded events the head of the entity has already been
set to the event hash when the error is raised.
-/
theorem claimC5_hash_mismatch_fails (o : HCEntity) (ev : HCEvent)
    (hid : ev.originatorId = o._id) (hnc : ev.isCreated = false)
    (hne : ev.previousHash ≠ o.head) :
    (HCEvent.mutate ev (some o)).err = some ESError.headHashError ∧
    (HCEvent.mutate ev (some o)).obj =
      some (if ev.isDiscarded then { o with head := ev.eventHash } else o) := by
  cases ev with
  | created oid topic kwargs ph => cases hnc
  | attributeChanged oid n v ph =>
      rw [HCEvent.originatorId] at hid
      rw [HCEvent.previousHash] at hne
      have hne2 : o.head ≠ ph := fun h => hne h.symm
      constructor
      · simp [HCEvent.mutate, HCEvent.checkObj, HCEvent.originatorId,
          HCEvent.previousHash, hid, hne2]
      · simp [HCEvent.mutate, HCEvent.checkObj, HCEvent.originatorId,
          HCEvent.previousHash, HCEvent.isDiscarded, hid, hne2]
  | discarded oid ph =>
      rw [HCEvent.originatorId] at hid
      subst hid
      have hlt := previousHash_lt_eventHash (HCEvent.discarded o._id ph)
      rw [HCEvent.previousHash] at hlt
      have hne3 : HCEvent.eventHash (HCEvent.discarded o._id ph) ≠ ph :=
        fun h => absurd h.symm (Nat.ne_of_lt hlt)
      constructor
      · simp [HCEvent.mutate, HCEvent.checkObj, HCEvent.originatorId,
          HCEvent.previousHash, hne3]
      · simp [HCEvent.mutate, HCEvent.checkObj, HCEvent.originatorId,
          HCEvent.previousHash, HCEvent.isDiscarded, hne3]

/-- Claim C5 witness: the amended theorem at a concrete attribute-change
event whose previous hash 7 does not match the entity head 42: the apply
fails with HeadHashError and the entity is unchanged. -/
theorem claimC5_witness :
    (HCEvent.mutate (HCEvent.attributeChanged 3 "a" "x" 7)
        (some ⟨3, false, 42, []⟩)).err = some ESError.headHashError ∧
    (HCEvent.mutate (HCEvent.attributeChanged 3 "a" "x" 7)
        (some ⟨3, false, 42, []⟩)).obj = some ⟨3, false, 42, []⟩ :=
  claimC5_hash_mismatch_fails ⟨3, false, 42, []⟩
    (HCEvent.attributeChanged 3 "a" "x" 7) rfl rfl (by decide)

/-! ## Timestamped entity claims -/

/--
Claim C9: for every timestamped entity, the Created event sets both
created_on and last_modified to the timestamp of the event (entity_kwargs of
TimestampedEntity.Created, entity.py lines 502 through 507, renames the
timestamp to created_on, and the constructor at lines 475 through 478 sets
both fields from it), and each subsequently applied event that yields an
entity updates last_modified to its own timestamp (Event.mutate, lines 491
through 497) while leaving created_on unchanged.
-/
theorem claimC9_timestamps :
    (∀ (oid ts0 : Nat) (kwargs : List (String × String)) (e0 : TEntity)
        (ev0 : TEvent), tCreate oid ts0 kwargs = some (e0, ev0) →
        e0.createdOn = ev0.timestamp ∧ e0.lastModified = ev0.timestamp) ∧
    (∀ (ev : TEvent) (o o2 : TEntity), ev.isCreated = false →
        (TEvent.mutate ev (some o)).err = none →
        (TEvent.mutate ev (some o)).ret = some o2 →
        o2.lastModified = ev.timestamp ∧ o2.createdOn = o.createdOn) := by
  constructor
  · intro oid ts0 kwargs e0 ev0 h
    have h2 : tCreate oid ts0 kwargs =
        some (⟨oid, false, ts0, ts0, toDict kwargs⟩,
          TEvent.created oid timestampedEntityTopic ts0 kwargs) := rfl
    rw [h2] at h
    simp only [Option.some.injEq, Prod.mk.injEq] at h
    rw [← h.1, ← h.2]
    exact ⟨rfl, rfl⟩
  · intro ev o o2 hnc herr hret
    cases ev with
    | created oid topic ts kwargs => cases hnc
    | attributeChanged oid ts n v =>
        cases hchk : TEvent.checkObj (.attributeChanged oid ts n v) o with
        | some er => rw [TEvent.mutate, hchk] at herr; cases herr
        | none =>
            rw [TEvent.mutate, hchk] at hret
            simp only [Option.some.injEq] at hret
            rw [← hret]
            exact ⟨rfl, rfl⟩
    | discarded oid ts =>
        cases hchk : TEvent.checkObj (.discarded oid ts) o with
        | some er => rw [TEvent.mutate, hchk] at hret; cases hret
        | none => rw [TEvent.mutate, hchk] at hret; cases hret

/-- Claim C9 witness: a concrete creation at timestamp 100 sets both
timestamps to 100, and a concrete attribute change at timestamp 250 updates
last_modified only. -/
theorem claimC9_witness :
    (TEntity.createdOn ⟨4, false, 100, 100, [("a", "a")]⟩ =
        TEvent.timestamp (TEvent.created 4 timestampedEntityTopic 100 [("a", "a")]) ∧
      TEntity.lastModified ⟨4, false, 100, 100, [("a", "a")]⟩ =
        TEvent.timestamp (TEvent.created 4 timestampedEntityTopic 100 [("a", "a")])) ∧
    (TEntity.lastModified ⟨4, false, 100, 250, [("a", "x")]⟩ =
        TEvent.timestamp (TEvent.attributeChanged 4 250 "a" "x") ∧
      TEntity.createdOn ⟨4, false, 100, 250, [("a", "x")]⟩ =
        TEntity.createdOn ⟨4, false, 100, 100, [("a", "a")]⟩) :=
  ⟨claimC9_timestamps.1 4 100 [("a", "a")] ⟨4, false, 100, 100, [("a", "a")]⟩
      (TEvent.created 4 timestampedEntityTopic 100 [("a", "a")]) (by rfl),
    claimC9_timestamps.2 (TEvent.attributeChanged 4 250 "a" "x")
      ⟨4, false, 100, 100, [("a", "a")]⟩ ⟨4, false, 100, 250, [("a", "x")]⟩
      rfl (by rfl) (by rfl)⟩

end EventSourcing
